import Mathlib

/-!
Shallow embedding of the storyboard-driven video pipeline
(`src/brain/storyboard.py`, `src/brain/templates.py`, `src/brain/director.py`,
`src/composer/timeline.py`, `src/composer/effects.py`) and proofs about it.

Python strings are modelled as `List Char` (named `Str`), floats as `ℚ`,
Python `None`-able fields as `Option`, and `dict` payloads as structured
records.  Randomness (`random.choice`, `random.sample`) is modelled by
oracle parameters supplied to the embedded functions.
-/

namespace VideoAuto

/-- Python strings, modelled as character lists. -/
abbrev Str := List Char

/-- Helper for Python `str.split()`: accumulates the current word (reversed
in `acc`) while scanning; whitespace flushes the accumulator. -/
def splitWordsAux : Str → List Char → List Str
  | [], acc => if acc.isEmpty then [] else [acc.reverse]
  | c :: cs, acc =>
      if c.isWhitespace then
        (if acc.isEmpty then splitWordsAux cs [] else acc.reverse :: splitWordsAux cs [])
      else splitWordsAux cs (c :: acc)

/-- Python `s.split()` (no separator argument): split on runs of whitespace,
no empty words. -/
def pyWords (s : Str) : List Str := splitWordsAux s []

/-- Python `len(s.split())`. -/
def wordCount (s : Str) : Nat := (pyWords s).length

/-- Enum `VisualType` from `src/brain/storyboard.py`. -/
inductive VisualType where
  | stock_footage
  | ai_generated_video
  | ai_generated_image
  | infographic
  | text_animation
  | motion_graphic
  | conversation
  | color_background
  deriving DecidableEq, Repr

/-- The `.value` string of a `VisualType` member. -/
def VisualType.value : VisualType → Str
  | .stock_footage => "stock_footage".toList
  | .ai_generated_video => "ai_generated_video".toList
  | .ai_generated_image => "ai_generated_image".toList
  | .infographic => "infographic".toList
  | .text_animation => "text_animation".toList
  | .motion_graphic => "motion_graphic".toList
  | .conversation => "conversation".toList
  | .color_background => "color_background".toList

/-- Python `VisualType(value)`: look up a member by value, `ValueError`
(here `none`) when the string matches no member. -/
def VisualType.ofValue (s : Str) : Option VisualType :=
  if s = "stock_footage".toList then some .stock_footage
  else if s = "ai_generated_video".toList then some .ai_generated_video
  else if s = "ai_generated_image".toList then some .ai_generated_image
  else if s = "infographic".toList then some .infographic
  else if s = "text_animation".toList then some .text_animation
  else if s = "motion_graphic".toList then some .motion_graphic
  else if s = "conversation".toList then some .conversation
  else if s = "color_background".toList then some .color_background
  else none

/-- Enum `TransitionType` from `src/brain/storyboard.py`. -/
inductive TransitionType where
  | cut
  | crossfade
  | fade_black
  | slide_left
  | slide_right
  | zoom_in
  | zoom_out
  deriving DecidableEq, Repr

/-- The `.value` string of a `TransitionType` member. -/
def TransitionType.value : TransitionType → Str
  | .cut => "cut".toList
  | .crossfade => "crossfade".toList
  | .fade_black => "fade_black".toList
  | .slide_left => "slide_left".toList
  | .slide_right => "slide_right".toList
  | .zoom_in => "zoom_in".toList
  | .zoom_out => "zoom_out".toList

/-- Python `TransitionType(value)`. -/
def TransitionType.ofValue (s : Str) : Option TransitionType :=
  if s = "cut".toList then some .cut
  else if s = "crossfade".toList then some .crossfade
  else if s = "fade_black".toList then some .fade_black
  else if s = "slide_left".toList then some .slide_left
  else if s = "slide_right".toList then some .slide_right
  else if s = "zoom_in".toList then some .zoom_in
  else if s = "zoom_out".toList then some .zoom_out
  else none

/-- One word-level timestamp `{word, start, end}` from the TTS engine. -/
structure WordStamp where
  word : Str
  tstart : ℚ
  tend : ℚ
  deriving DecidableEq, Repr

/-- Dataclass `Scene` from `src/brain/storyboard.py`.  `visual_clip` is an
opaque handle (the model never inspects the MoviePy clip object). -/
structure Scene where
  text : Str
  duration : ℚ := 8
  visual_type : VisualType := .stock_footage
  visual_prompt : Str := []
  visual_params : List (Str × Str) := []
  transition_in : TransitionType := .crossfade
  transition_duration : ℚ := 1/2
  text_overlay : Str := []
  scene_index : Nat := 0
  visual_path : Option Str := none
  visual_clip : Option Nat := none
  audio_path : Option Str := none
  audio_duration : Option ℚ := none
  word_timestamps : List WordStamp := []
  deriving DecidableEq, Repr

/-- Dataclass `Storyboard` from `src/brain/storyboard.py`. -/
structure Storyboard where
  topic : Str
  language : Str := "en".toList
  style : Str := "education".toList
  target_duration : ℚ := 30
  hook : Str := []
  scenes : List Scene := []
  cta : Str := []
  hashtags : List Str := []
  music_mood : Str := "inspiring".toList
  title : Str := []
  total_audio_duration : ℚ := 0
  deriving DecidableEq, Repr

/-- Method `Storyboard.add_scene`: append the scene, assigning its index to the
current list length. -/
def Storyboard.addScene (sb : Storyboard) (s : Scene) : Storyboard :=
  { sb with scenes := sb.scenes ++ [{ s with scene_index := sb.scenes.length }] }

/-- The `parts` list built by `Storyboard.get_full_narration`: hook (if
truthy), each scene's text (if truthy) in order, cta (if truthy), mirroring
the source's conditional appends. -/
def Storyboard.narrationParts (sb : Storyboard) : List Str :=
  let p0 : List Str := if sb.hook = [] then [] else [sb.hook]
  let p1 := sb.scenes.foldl (fun acc s => if s.text = [] then acc else acc ++ [s.text]) p0
  if sb.cta = [] then p1 else p1 ++ [sb.cta]

/-- Python `" ".join(parts)`: the parts separated by single spaces. -/
def spaceJoin : List Str → Str
  | [] => []
  | [p] => p
  | p :: q :: ps => p ++ ' ' :: spaceJoin (q :: ps)

/-- Method `Storyboard.get_full_narration`: the parts joined by single spaces. -/
def Storyboard.getFullNarration (sb : Storyboard) : Str :=
  spaceJoin sb.narrationParts

/-! ## Director: word-timestamp distribution (`src/brain/director.py`,
`Director._distribute_timestamps`) -/

/-- The `for i, scene in enumerate(storyboard.scenes)` loop of
`_distribute_timestamps`: each scene receives the Python slice
`word_timestamps[word_idx:end_idx]` with
`end_idx = min(word_idx + count, len(word_timestamps))`, and `word_idx`
advances to `end_idx`. -/
def distLoop (ts : List WordStamp) : List Scene → Nat → List Scene
  | [], _ => []
  | s :: rest, idx =>
      let c := wordCount s.text
      let endIdx := min (idx + c) ts.length
      { s with word_timestamps := (ts.drop idx).take (endIdx - idx) }
        :: distLoop ts rest endIdx

/-- Method `Director._distribute_timestamps`: early return when the global list or
the scene list is empty; otherwise skip the hook's words and slice the
global list by cumulative scene word counts. -/
def distributeTimestamps (sb : Storyboard) (ts : List WordStamp) : Storyboard :=
  if ts = [] ∨ sb.scenes = [] then sb
  else
    let hookWords := if sb.hook = [] then 0 else wordCount sb.hook
    { sb with scenes := distLoop ts sb.scenes hookWords }

/-! ## Director: AI image phase (`Director._generate_ai_images`) -/

/-- Outcome of one `generator.generate(prompt)` call: a truthy path, a falsy
result (`None`/empty), or a raised exception. -/
inductive GenOutcome where
  | ok (path : Str)
  | noPath
  | err
  deriving DecidableEq, Repr

/-- A scene downgraded to stock footage (`scene.visual_type = VisualType.STOCK_FOOTAGE`). -/
def downgrade (s : Scene) : Scene := { s with visual_type := .stock_footage }

/-- The per-scene loop of `_generate_ai_images`: on a truthy path set
`visual_path`, on a falsy result downgrade the scene, on an exception stop
(the remaining scenes stay untouched) and report that the loop raised. -/
def aiImageLoop (outcome : Nat → GenOutcome) : List Scene → Nat → List Scene × Bool
  | [], _ => ([], false)
  | s :: rest, i =>
      match outcome i with
      | .ok p =>
          let r := aiImageLoop outcome rest (i + 1)
          ({ s with visual_path := some p } :: r.1, r.2)
      | .noPath =>
          let r := aiImageLoop outcome rest (i + 1)
          (downgrade s :: r.1, r.2)
      | .err => (s :: rest, true)

/-- Method `Director._generate_ai_images`.  Flag `initFail` models an exception while
importing/constructing the generator; `outcome i` the `i`-th
`generator.generate` call; `unloadFail` an exception raised by
`generator.unload()`.  The source's `except` clause downgrades every scene
of the batch to stock footage (already-assigned `visual_path`s persist). -/
def generateAiImages (initFail : Bool) (outcome : Nat → GenOutcome)
    (unloadFail : Bool) (scenes : List Scene) : List Scene :=
  if initFail then scenes.map downgrade
  else
    let r := aiImageLoop outcome scenes 0
    if r.2 then r.1.map downgrade
    else if unloadFail then r.1.map downgrade
    else r.1

/-! ## Timeline compositor (`src/composer/timeline.py`) -/

/-- Python truthiness of an `Optional[str]` field (`None` and `""` are falsy). -/
def truthyStr : Option Str → Bool
  | none => false
  | some s => !s.isEmpty

/-- The total-duration derivation at the top of `build_video_from_storyboard`
(lines 162–172): start from `storyboard.total_audio_duration` and let the
first scene with a truthy `audio_path` override it with its truthy
`audio_duration`. -/
def clipsAudioTotal (sb : Storyboard) : ℚ :=
  match sb.scenes.find? (fun s => truthyStr s.audio_path) with
  | some s =>
      match s.audio_duration with
      | some d => if d ≠ 0 then d else sb.total_audio_duration
      | none => sb.total_audio_duration
  | none => sb.total_audio_duration

/-- The final clamp of the same derivation: `if total_duration <= 0:
total_duration = storyboard.target_duration`. -/
def clipsTotalDuration (sb : Storyboard) : ℚ :=
  if clipsAudioTotal sb ≤ 0 then sb.target_duration else clipsAudioTotal sb

/-- The per-scene duration formula of `_build_scene_clips` (lines 261–270):
`per_scene = max(3.0, (total − 3 − (3 if cta else 0)) / num_scenes)`. -/
def sceneClipsPerScene (sb : Storyboard) (total_duration : ℚ) : ℚ :=
  let hook_time : ℚ := 3
  let cta_time : ℚ := if sb.cta = [] then 0 else 3
  let content_time := total_duration - hook_time - cta_time
  max 3 (content_time / sb.scenes.length)

/-- The total used by `_build_text_overlays` (line 362):
`storyboard.total_audio_duration or storyboard.target_duration`
(Python `or`: `0.0` is falsy). -/
def overlaysTotal (sb : Storyboard) : ℚ :=
  if sb.total_audio_duration ≠ 0 then sb.total_audio_duration else sb.target_duration

/-- The per-scene duration formula of `_build_text_overlays` (lines 358–366). -/
def textOverlaysPerScene (sb : Storyboard) : ℚ :=
  let total := overlaysTotal sb
  let hook_time : ℚ := 3
  let cta_time : ℚ := if sb.cta = [] then 0 else 3
  let content_time := total - hook_time - cta_time
  max 3 (content_time / sb.scenes.length)

/-- Cumulative scene start times: both builders start `elapsed` at the 3s
hook reserve and advance it by the per-scene duration for each scene. -/
def sceneStarts (per : ℚ) : Nat → ℚ → List ℚ
  | 0, _ => []
  | n + 1, elapsed => elapsed :: sceneStarts per n (elapsed + per)

/-- Start offsets of the visual clips built by `_build_scene_clips`. -/
def clipStartOffsets (sb : Storyboard) : List ℚ :=
  sceneStarts (sceneClipsPerScene sb (clipsTotalDuration sb)) sb.scenes.length 3

/-- Start offsets used by `_build_text_overlays` (`elapsed = 3.0`, advanced
by `per_scene` per scene). -/
def overlayStartOffsets (sb : Storyboard) : List ℚ :=
  sceneStarts (textOverlaysPerScene sb) sb.scenes.length 3

/-! ## Transition engine (`src/composer/effects.py`)

MoviePy clips are modelled as a syntax tree of the operations the engine
applies.  The frame filters of the custom transforms are lazy and cannot
raise at apply time; the eager part of each custom helper (`clip.size`
unpacking, `clip.transform`) can raise, which is modelled by the oracle
`ok : Clip → TransitionType → Bool`.  `with_effects` application is
modelled as a total constructor. -/

/-- Slide direction argument of `_apply_slide`. -/
inductive SlideDir where
  | left
  | right
  deriving DecidableEq, Repr

/-- Result of a successful custom frame transform. -/
inductive TransformKind where
  | slide (dir : SlideDir) (duration : ℚ)
  | zoomIn (duration : ℚ)
  | zoomOut (duration : ℚ)
  deriving DecidableEq, Repr

/-- Abstract MoviePy clip: a base clip with the engine's operations layered
on top. -/
inductive Clip where
  | base (id : Nat)
  | crossFadeIn (c : Clip) (duration : ℚ)
  | fadeIn (c : Clip) (duration : ℚ)
  | transform (c : Clip) (k : TransformKind)
  deriving DecidableEq, Repr

/-- Helper `TransitionEngine._apply_slide`: on success wrap the clip in the slide
frame filter; the `except` branch falls back to a plain crossfade. -/
def applySlide (ok : Bool) (c : Clip) (duration : ℚ) (dir : SlideDir) : Clip :=
  if ok then .transform c (.slide dir duration) else .crossFadeIn c duration

/-- Helper `TransitionEngine._apply_zoom_in`. -/
def applyZoomIn (ok : Bool) (c : Clip) (duration : ℚ) : Clip :=
  if ok then .transform c (.zoomIn duration) else .crossFadeIn c duration

/-- Helper `TransitionEngine._apply_zoom_out`. -/
def applyZoomOut (ok : Bool) (c : Clip) (duration : ℚ) : Clip :=
  if ok then .transform c (.zoomOut duration) else .crossFadeIn c duration

/-- Method `TransitionEngine.apply_transition` (lines 19–59).  A `duration <= 0`
returns the clip untouched; `cut` is the identity; `slide_left` slides the
content in from the right edge and `slide_right` from the left, matching
the source's direction arguments. -/
def applyTransition (ok : Clip → TransitionType → Bool) (c : Clip)
    (t : TransitionType) (duration : ℚ) : Clip :=
  if duration ≤ 0 then c
  else
    match t with
    | .crossfade => .crossFadeIn c duration
    | .fade_black => .fadeIn c duration
    | .cut => c
    | .slide_left => applySlide (ok c .slide_left) c duration .right
    | .slide_right => applySlide (ok c .slide_right) c duration .left
    | .zoom_in => applyZoomIn (ok c .zoom_in) c duration
    | .zoom_out => applyZoomOut (ok c .zoom_out) c duration

/-- The transition types whose branch of `apply_transition` runs a custom
frame transform (slide/zoom helpers). -/
def hasCustomTransform : TransitionType → Bool
  | .slide_left | .slide_right | .zoom_in | .zoom_out => true
  | _ => false

/-! ## Template generator (`src/brain/templates.py`) -/

/-- Python `s.replace(pat, rep)` for a non-empty pattern. -/
def pyReplace (s pat rep : Str) : Str :=
  match s with
  | [] => []
  | c :: rest =>
      if h : pat ≠ [] ∧ pat.isPrefixOf (c :: rest) then
        rep ++ pyReplace ((c :: rest).drop pat.length) pat rep
      else
        c :: pyReplace rest pat rep
termination_by s.length
decreasing_by
  · simp only [List.length_drop, List.length_cons]
    have : 1 ≤ pat.length := List.length_pos.mpr h.1
    omega
  · simp [Nat.lt_succ_self]

/-- One entry of `TOPIC_FACTS`: `(fact_text, explanation, visual_query)`. -/
structure Fact where
  fact_text : Str
  explanation : Str
  visual_query : Str
  deriving DecidableEq, Repr

/-- The duration-bucket rule of `generate_storyboard` (lines 90–95):
`<=20 → 2`, `<=40 → 3`, else `min(4, max_scenes)`. -/
def numSegments (duration : ℤ) (max_scenes : ℕ) : ℕ :=
  if duration ≤ 20 then 2
  else if duration ≤ 40 then 3
  else min 4 max_scenes

/-- Line 103, `segment_duration = max(5, (duration - 6) // num_segments)` (line 103);
Python `//` on integers is floor division. -/
def segmentDuration (duration : ℤ) (n : ℕ) : ℤ :=
  max 5 ((duration - 6).fdiv n)

/-- The fixed transition rotation of `generate_storyboard` (lines 126–133). -/
def templateTransitions : List TransitionType :=
  [.crossfade, .cut, .fade_black, .crossfade, .zoom_in, .slide_left]

/-- Lookup `VISUAL_TYPE_MAP.get(v)` (lines 35–43): pattern string → visual type. -/
def visualTypeMapLookup (v : Str) : Option VisualType :=
  if v = "stock_footage".toList then some .stock_footage
  else if v = "ai_image".toList then some .ai_generated_image
  else if v = "ai_video".toList then some .ai_generated_video
  else if v = "infographic".toList then some .infographic
  else if v = "text_animation".toList then some .text_animation
  else if v = "motion_graphic".toList then some .motion_graphic
  else if v = "color_background".toList then some .color_background
  else none

/-- Function `_get_visual_sequence` (lines 197–225).  The `storyboard_patterns.json`
content for the style (`mixed` mode) is an oracle argument: `none` when the
file/style lookup yields nothing, `some seq` for a pattern with a
`visual_sequence` list of type strings. -/
def getVisualSequence (visual_mode : Str) (count : ℕ)
    (stylePattern : Option (List Str)) : List VisualType :=
  if visual_mode = "stock".toList then List.replicate count .stock_footage
  else if visual_mode = "ai_image".toList then List.replicate count .ai_generated_image
  else if visual_mode = "ai_video".toList then List.replicate count .ai_generated_video
  else if visual_mode = "mixed".toList then
    match stylePattern with
    | some seq =>
        (seq.take count).map (fun v => (visualTypeMapLookup v).getD .stock_footage)
    | none =>
        [VisualType.stock_footage, .text_animation, .stock_footage,
         .motion_graphic, .infographic, .stock_footage].take count
  else List.replicate count .stock_footage

/-- Python list indexing `l[i % len(l)]` as used for
`visual_types[i % len(visual_types)]` and `transitions[i % len(transitions)]`;
meaningful only for non-empty `l` (Python raises on `i % 0`). -/
def cycleGet {α : Type} (l : List α) (dflt : α) (i : ℕ) : α :=
  l.getD (i % l.length) dflt

/-- The `mood_map.get(style, "neutral")` lookup (lines 114–120, 144). -/
def moodMap (style : Str) : Str :=
  if style = "education".toList then "inspiring".toList
  else if style = "lifestyle".toList then "chill".toList
  else if style = "product".toList then "upbeat".toList
  else if style = "humor".toList then "funny".toList
  else if style = "bait".toList then "dramatic".toList
  else "neutral".toList

/-- Python `text[:50] + ("..." if len(text) > 50 else "")`. -/
def trunc50 (text : Str) : Str :=
  text.take 50 ++ (if 50 < text.length then "...".toList else [])

/-- The body of the `for i, (fact_text, explanation, visual_query)` loop of
`generate_storyboard` (lines 148–191), building one `Scene`.  `pickv` is the
`random.choice` result used by the branch that fires for this scene (effect
name or chart type). -/
def buildScene (topic : Str) (segDur : ℤ) (visual_types : List VisualType)
    (i : ℕ) (f : Fact) (pickv : Str) : Scene :=
  let text := pyReplace f.fact_text "{topic}".toList topic
  let detail := f.explanation
  let vtype := cycleGet visual_types .stock_footage i
  let transition := cycleGet templateTransitions .crossfade i
  let visual_prompt :=
    match vtype with
    | .stock_footage => f.visual_query
    | .ai_generated_image =>
        "cinematic, ".toList ++ f.visual_query ++ ", high quality, 4k".toList
    | .ai_generated_video =>
        "cinematic, ".toList ++ f.visual_query ++ ", high quality, 4k".toList
    | .infographic => f.visual_query
    | .text_animation => text.take 50
    | .motion_graphic => f.visual_query
    | _ => f.visual_query
  let visual_params : List (Str × Str) :=
    match vtype with
    | .text_animation =>
        [("effect".toList, pickv), ("text".toList, trunc50 text)]
    | .motion_graphic =>
        [("effect".toList, pickv), ("text".toList, trunc50 text)]
    | .infographic =>
        [("chart_type".toList, pickv), ("title".toList, topic),
         ("data_label".toList, text.take 40)]
    | _ => []
  { text := text ++ ". ".toList ++ detail
    duration := (segDur : ℚ)
    visual_type := vtype
    visual_prompt := visual_prompt
    visual_params := visual_params
    transition_in := transition
    text_overlay := trunc50 text }

/-- Function `generate_storyboard` (lines 54–194).  Randomness is abstracted into
oracle arguments: `hook` is the `randomize_hook` result, `ctaTemplate` the
chosen structure's CTA template, `facts` the `get_facts_for_topic` result
(`random.sample` plus the refill loop return exactly `num_segments` facts
for the bucket values `num_segments <= 4`), `stylePattern` the loaded
pattern table entry, and `pick i` the in-loop `random.choice` for scene `i`. -/
def generateStoryboard (topic : Str) (duration : ℤ) (language style visual_mode : Str)
    (max_scenes : ℕ) (hook ctaTemplate : Str) (stylePattern : Option (List Str))
    (facts : List Fact) (pick : ℕ → Str) : Storyboard :=
  let n := numSegments duration max_scenes
  let segDur := segmentDuration duration n
  let cta_text := pyReplace ctaTemplate "{topic}".toList topic
  let topic_words := pyWords (pyReplace (topic.map Char.toLower) ",".toList [])
  let hashtags := (topic_words.take 3).map (fun w => '#' :: w)
      ++ ["#shorts".toList, "#viral".toList, '#' :: style]
  let visual_types := getVisualSequence visual_mode n stylePattern
  let sb0 : Storyboard :=
    { topic := topic
      language := language
      style := style
      target_duration := (duration : ℚ)
      hook := hook
      cta := cta_text
      hashtags := hashtags
      music_mood := moodMap style
      title := topic }
  facts.enum.foldl
    (fun sb p => sb.addScene (buildScene topic segDur visual_types p.1 p.2 (pick p.1)))
    sb0

/-! ## Storyboard serialization (`Storyboard.to_dict` / `Storyboard.from_dict`,
`src/brain/storyboard.py` lines 130–179) -/

/-- The per-scene dict built by `to_dict` (lines 139–147). -/
structure SceneDict where
  text : Str
  duration : ℚ
  visual_type : Str
  visual_prompt : Str
  visual_params : List (Str × Str)
  transition_in : Str
  text_overlay : Str
  deriving DecidableEq, Repr

/-- The top-level dict built by `to_dict` (lines 132–153). -/
structure StoryboardDict where
  topic : Str
  language : Str
  style : Str
  target_duration : ℚ
  hook : Str
  scenes : List SceneDict
  cta : Str
  hashtags : List Str
  music_mood : Str
  deriving DecidableEq, Repr

/-- The per-scene entry built by `Storyboard.to_dict`. -/
def sceneToDict (s : Scene) : SceneDict :=
  { text := s.text
    duration := s.duration
    visual_type := s.visual_type.value
    visual_prompt := s.visual_prompt
    visual_params := s.visual_params
    transition_in := s.transition_in.value
    text_overlay := s.text_overlay }

/-- Method `Storyboard.to_dict`. -/
def Storyboard.toDict (sb : Storyboard) : StoryboardDict :=
  { topic := sb.topic
    language := sb.language
    style := sb.style
    target_duration := sb.target_duration
    hook := sb.hook
    scenes := sb.scenes.map sceneToDict
    cta := sb.cta
    hashtags := sb.hashtags
    music_mood := sb.music_mood }

/-- The `Scene(...)` construction inside `from_dict` (lines 169–177);
`none` models the `ValueError` raised by `VisualType(...)` /
`TransitionType(...)` on an unknown value string. -/
def sceneFromDict (d : SceneDict) : Option Scene := do
  let vt ← VisualType.ofValue d.visual_type
  let tr ← TransitionType.ofValue d.transition_in
  pure
    { text := d.text
      duration := d.duration
      visual_type := vt
      visual_prompt := d.visual_prompt
      visual_params := d.visual_params
      transition_in := tr
      text_overlay := d.text_overlay }

/-- Method `Storyboard.from_dict` (lines 155–179): build the storyboard from the
top-level fields, then `add_scene` each parsed scene in order. -/
def Storyboard.fromDict (d : StoryboardDict) : Option Storyboard := do
  let scenes ← d.scenes.mapM sceneFromDict
  let sb : Storyboard :=
    { topic := d.topic
      language := d.language
      style := d.style
      target_duration := d.target_duration
      hook := d.hook
      cta := d.cta
      hashtags := d.hashtags
      music_mood := d.music_mood }
  pure (scenes.foldl Storyboard.addScene sb)

/-! ## Auxiliary definitions used by the statements -/

/-- Number of words the hook contributes
(`len(storyboard.hook.split()) if storyboard.hook else 0`). -/
def hookWordsOf (sb : Storyboard) : ℕ :=
  if sb.hook = [] then 0 else wordCount sb.hook

/-- Total word count of the scene texts. -/
def totalSceneWords (sb : Storyboard) : ℕ :=
  (sb.scenes.map (fun s => wordCount s.text)).sum

/-- Concatenation of the scenes' `word_timestamps` lists in scene order. -/
def allSceneStamps (sb : Storyboard) : List WordStamp :=
  (sb.scenes.map Scene.word_timestamps).flatten

/-- A scene list with `scene_index` reassigned to consecutive positions
starting at `k` — the effect of repeated `add_scene`. -/
def reindexFrom (k : ℕ) : List Scene → List Scene
  | [] => []
  | s :: rest => { s with scene_index := k } :: reindexFrom (k + 1) rest

/-- The image of a scene under a `to_dict`/`from_dict` round trip, before
`add_scene` reassigns its index: serialized fields kept, everything else at
its dataclass default. -/
def normScene (s : Scene) : Scene :=
  { text := s.text
    duration := s.duration
    visual_type := s.visual_type
    visual_prompt := s.visual_prompt
    visual_params := s.visual_params
    transition_in := s.transition_in
    text_overlay := s.text_overlay }

/-- The narration as the spec's sentence literally describes it: hook, then
every scene text (empty or not), then cta, space-joined, with only hook and
cta omitted when empty.  Stated from the spec's words, to be compared with
`Storyboard.getFullNarration` (which also omits empty scene texts). -/
def specNarration (sb : Storyboard) : Str :=
  spaceJoin ((if sb.hook = [] then [] else [sb.hook])
    ++ sb.scenes.map Scene.text
    ++ (if sb.cta = [] then [] else [sb.cta]))

/-- The per-segment duration as the spec's sentence literally states it:
`max(5, (duration − 6) / segment_count)` with exact (rational) division.
Stated from the spec's words, to be compared with `segmentDuration`. -/
def specSegmentDuration (duration : ℚ) (n : ℕ) : ℚ :=
  max 5 ((duration - 6) / n)

/-! ## Concrete inputs for counterexamples and witnesses -/

/-- A two-element global timestamp list. -/
def tsTwo : List WordStamp :=
  [⟨"alpha".toList, 0, 1⟩, ⟨"beta".toList, 1, 2⟩]

/-- Storyboard with a one-word hook and a single one-word scene. -/
def sbHooked : Storyboard :=
  { topic := "t".toList
    hook := "hi".toList
    scenes := [{ text := "a".toList }]
    cta := [] }

/-- Storyboard with no hook, no cta, and one two-word scene. -/
def sbNoHook : Storyboard :=
  { topic := "t".toList
    hook := []
    scenes := [{ text := "a b".toList }]
    cta := [] }

/-- Storyboard whose first scene carries an audio duration that disagrees
with `total_audio_duration`. -/
def sbAudioMismatch : Storyboard :=
  { topic := "t".toList
    target_duration := 30
    scenes := [{ text := "a".toList, audio_path := some "a.mp3".toList,
                 audio_duration := some 10 }]
    cta := []
    total_audio_duration := 20 }

/-- Storyboard whose first scene carries an audio duration equal to
`total_audio_duration`, as the director's audio phase writes it. -/
def sbAudioOk : Storyboard :=
  { topic := "t".toList
    target_duration := 30
    scenes := [{ text := "a".toList, audio_path := some "a.mp3".toList,
                 audio_duration := some 12 }]
    cta := "follow".toList
    total_audio_duration := 12 }

/-- Storyboard with a non-empty hook and cta and one empty-text scene. -/
def sbEmptyText : Storyboard :=
  { topic := "t".toList
    hook := "h".toList
    scenes := [{ text := [] }]
    cta := "c".toList }

/-- A scene tagged for AI image generation, not yet filled in. -/
def aiScene1 : Scene := { text := "a".toList, visual_type := .ai_generated_image }

/-- Three scenes tagged for AI image generation, not yet filled in. -/
def aiScenes3 : List Scene :=
  [aiScene1,
   { text := "b".toList, visual_type := .ai_generated_image },
   { text := "c".toList, visual_type := .ai_generated_image }]

/-- Three template facts, enough for the 3-segment duration bucket. -/
def factsThree : List Fact :=
  [⟨"f1".toList, "e1".toList, "q1".toList⟩,
   ⟨"f2".toList, "e2".toList, "q2".toList⟩,
   ⟨"f3".toList, "e3".toList, "q3".toList⟩]

/-- Four template facts, for the `min(4, max_scenes)` bucket. -/
def factsFour : List Fact :=
  factsThree ++ [⟨"f4".toList, "e4".toList, "q4".toList⟩]

/-! ## Theorems -/

/-- C9: the transition engine's apply is the identity in two cases — applying
the `cut` transition returns the clip unchanged for every duration, and
applying any transition type with duration `≤ 0` returns the clip
unchanged. -/
theorem c9_cut_and_zero_duration_identity :
    (∀ (ok : Clip → TransitionType → Bool) (c : Clip) (d : ℚ),
        applyTransition ok c .cut d = c) ∧
    (∀ (ok : Clip → TransitionType → Bool) (c : Clip) (t : TransitionType) (d : ℚ),
        d ≤ 0 → applyTransition ok c t d = c) := by
  constructor
  · intro ok c d
    by_cases h : d ≤ 0 <;> simp [applyTransition, h]
  · intro ok c t d h
    simp [applyTransition, h]

/-- Witness for C9 at concrete inputs: a cut with duration 5 and a crossfade
with duration 0 both leave the base clip unchanged. -/
theorem c9_witness :
    applyTransition (fun _ _ => true) (.base 0) .cut 5 = .base 0 ∧
    applyTransition (fun _ _ => true) (.base 0) .crossfade 0 = .base 0 :=
  ⟨c9_cut_and_zero_duration_identity.1 (fun _ _ => true) (.base 0) 5,
   c9_cut_and_zero_duration_identity.2 (fun _ _ => true) (.base 0) .crossfade 0 le_rfl⟩

/-- C7: for every clip, transition type with a custom transform, and positive
duration, if the custom transform raises, `apply_transition` returns the
clip with a plain crossfade applied instead; `apply_transition` itself is a
total function of its inputs (it never raises). -/
theorem c7_custom_transform_failure_falls_back_to_crossfade
    (ok : Clip → TransitionType → Bool) (c : Clip) (t : TransitionType) (d : ℚ)
    (hd : 0 < d) (ht : hasCustomTransform t = true) (hfail : ok c t = false) :
    applyTransition ok c t d = .crossFadeIn c d := by
  have hd' : ¬ d ≤ 0 := not_le.mpr hd
  cases t <;>
    simp_all [applyTransition, applySlide, applyZoomIn, applyZoomOut, hasCustomTransform]

/-- Witness for C7: a zoom-in whose custom transform fails at duration 1
yields the crossfaded clip. -/
theorem c7_witness :
    applyTransition (fun _ _ => false) (.base 0) .zoom_in 1 = .crossFadeIn (.base 0) 1 :=
  c7_custom_transform_failure_falls_back_to_crossfade (fun _ _ => false) (.base 0)
    .zoom_in 1 (by norm_num) rfl rfl

/-- C4: for every storyboard with at least one scene and every derived total
duration (even one making `content_time` negative), the per-scene duration
computed by the visual-layer builder and by the text-overlay builder is at
least 3.0, so no scene or overlay clip gets a non-positive duration. -/
theorem c4_per_scene_duration_at_least_three (sb : Storyboard) (total : ℚ)
    (hne : sb.scenes ≠ []) :
    3 ≤ sceneClipsPerScene sb total ∧ 3 ≤ textOverlaysPerScene sb :=
  ⟨le_max_left _ _, le_max_left _ _⟩

/-- Witness for C4 on a concrete storyboard whose total duration 1 makes
`content_time` negative. -/
theorem c4_witness :
    sbHooked.scenes ≠ [] ∧
    3 ≤ sceneClipsPerScene sbHooked 1 ∧ 3 ≤ textOverlaysPerScene sbHooked :=
  ⟨by simp [sbHooked], c4_per_scene_duration_at_least_three sbHooked 1 (by simp [sbHooked])⟩

/-- C3 counterexample: a storyboard whose first scene stores an
`audio_duration` (10) different from `total_audio_duration` (20) makes the
visual-layer builder and the text-overlay builder compute different
per-scene durations (7 vs 17), refuting the claim as stated for every
storyboard. -/
theorem c3_counterexample :
    sceneClipsPerScene sbAudioMismatch (clipsTotalDuration sbAudioMismatch) = 7 ∧
    textOverlaysPerScene sbAudioMismatch = 17 ∧
    (7 : ℚ) ≠ 17 := by
  have h1 : clipsTotalDuration sbAudioMismatch = 10 := by
    have ha : clipsAudioTotal sbAudioMismatch = 10 := by
      simp [clipsAudioTotal, sbAudioMismatch, truthyStr, List.find?]
    rw [clipsTotalDuration, ha]
    norm_num
  have h2 : overlaysTotal sbAudioMismatch = 20 := by
    norm_num [overlaysTotal, sbAudioMismatch]
  have hc : sceneClipsPerScene sbAudioMismatch (clipsTotalDuration sbAudioMismatch) = 7 := by
    rw [sceneClipsPerScene, h1]
    norm_num [sbAudioMismatch]
  have ho : textOverlaysPerScene sbAudioMismatch = 17 := by
    rw [textOverlaysPerScene, h2]
    norm_num [sbAudioMismatch]
  exact ⟨hc, ho, by norm_num⟩

/-- C3 amended: the two builders use the same per-scene formula, and whenever
every audio-carrying scene's `audio_duration` is unset, zero, or equal to
`total_audio_duration` (the pipeline invariant: the director writes the same
value to both) and `total_audio_duration` is nonnegative, they derive the
same total, so the per-scene durations and all scene start offsets agree. -/
theorem c3_per_scene_durations_agree (sb : Storyboard)
    (h0 : 0 ≤ sb.total_audio_duration)
    (h1 : ∀ s ∈ sb.scenes, truthyStr s.audio_path = true →
        s.audio_duration = none ∨ s.audio_duration = some 0 ∨
        s.audio_duration = some sb.total_audio_duration) :
    sceneClipsPerScene sb (clipsTotalDuration sb) = textOverlaysPerScene sb ∧
    clipStartOffsets sb = overlayStartOffsets sb := by
  have haud : clipsAudioTotal sb = sb.total_audio_duration := by
    unfold clipsAudioTotal
    cases hf : sb.scenes.find? (fun s => truthyStr s.audio_path) with
    | none => rfl
    | some s =>
        have hs := List.mem_of_find?_eq_some hf
        have hp := List.find?_some hf
        dsimp only
        rcases h1 s hs hp with h | h | h
        · rw [h]
        · rw [h]
          norm_num
        · rw [h]
          dsimp only
          split <;> rfl
  have htot : clipsTotalDuration sb = overlaysTotal sb := by
    rw [clipsTotalDuration, haud, overlaysTotal]
    rcases eq_or_lt_of_le h0 with hb | hb
    · rw [← hb]; norm_num
    · rw [if_neg (not_le.mpr hb), if_pos (ne_of_gt hb)]
  constructor
  · rw [sceneClipsPerScene, htot, overlaysTotal, textOverlaysPerScene, overlaysTotal]
  · unfold clipStartOffsets overlayStartOffsets
    rw [htot, sceneClipsPerScene, textOverlaysPerScene]

/-- Flattening all-empty per-scene timestamp lists yields the empty list. -/
theorem flatten_word_timestamps_eq_nil {l : List Scene}
    (h : ∀ s ∈ l, s.word_timestamps = []) :
    (l.map Scene.word_timestamps).flatten = [] := by
  rw [List.flatten_eq_nil_iff]
  intro x hx
  rcases List.mem_map.mp hx with ⟨s, hs, rfl⟩
  exact h s hs

/-- The distribution loop produces, in total, exactly the slice of the
global list starting at `idx` whose length is the total scene word count
(clamped at the list end). -/
theorem distLoop_flatten (ts : List WordStamp) (scenes : List Scene) :
    ∀ idx, ((distLoop ts scenes idx).map Scene.word_timestamps).flatten
      = (ts.drop idx).take ((scenes.map (fun s => wordCount s.text)).sum) := by
  induction scenes with
  | nil => intro idx; simp [distLoop]
  | cons s rest ih =>
      intro idx
      simp only [distLoop, List.map_cons, List.flatten_cons, List.sum_cons]
      rw [ih]
      have h1 : (ts.drop idx).take (min (idx + wordCount s.text) ts.length - idx)
          = (ts.drop idx).take (wordCount s.text) := by
        rw [List.take_eq_take, List.length_drop]
        omega
      have h2 : ts.drop (min (idx + wordCount s.text) ts.length)
          = ts.drop (idx + wordCount s.text) := by
        rcases le_total (idx + wordCount s.text) ts.length with h | h
        · rw [min_eq_left h]
        · rw [min_eq_right h, List.drop_eq_nil_of_le le_rfl,
              List.drop_eq_nil_of_le h]
      rw [h1, h2, ← List.drop_drop, ← List.take_add]

/-- Witness for C3's amended statement: a storyboard meeting the pipeline
invariant (first scene's `audio_duration` equals `total_audio_duration`). -/
theorem c3_witness :
    sceneClipsPerScene sbAudioOk (clipsTotalDuration sbAudioOk)
      = textOverlaysPerScene sbAudioOk ∧
    clipStartOffsets sbAudioOk = overlayStartOffsets sbAudioOk :=
  c3_per_scene_durations_agree sbAudioOk (by norm_num [sbAudioOk])
    (by
      intro s hs _
      right; right
      simp only [sbAudioOk, List.mem_singleton] at hs
      subst hs
      rfl)

/-- C1 counterexample: for a storyboard with a one-word hook and a single
one-word scene, and a two-stamp global list (length 2 ≥ total scene word
count 1, scenes initially without timestamps), the concatenation of the
scenes' `word_timestamps` after distribution is not the original global
list — the hook's leading stamp is skipped. -/
theorem c1_counterexample :
    totalSceneWords sbHooked ≤ tsTwo.length ∧
    (∀ s ∈ sbHooked.scenes, s.word_timestamps = []) ∧
    allSceneStamps (distributeTimestamps sbHooked tsTwo) ≠ tsTwo := by
  decide

/-- C1 amended: for every storyboard whose scenes start with empty
`word_timestamps` and every global timestamp list, after
`_distribute_timestamps` the concatenation of the scenes' `word_timestamps`
in scene order equals the slice of the global list that starts at the hook
word count and extends for the total scene-text word count (clamped at the
list end) — no entry in that range is dropped or duplicated; the whole
global list is reproduced exactly when the hook is empty and the global
length equals the total scene word count. -/
theorem c1_distribution_is_offset_slice (sb : Storyboard) (ts : List WordStamp)
    (hinit : ∀ s ∈ sb.scenes, s.word_timestamps = []) :
    allSceneStamps (distributeTimestamps sb ts)
        = (ts.drop (hookWordsOf sb)).take (totalSceneWords sb) ∧
    (sb.hook = [] → ts.length = totalSceneWords sb →
      allSceneStamps (distributeTimestamps sb ts) = ts) := by
  have main : allSceneStamps (distributeTimestamps sb ts)
      = (ts.drop (hookWordsOf sb)).take (totalSceneWords sb) := by
    unfold distributeTimestamps
    by_cases h : ts = [] ∨ sb.scenes = []
    · rw [if_pos h]
      rcases h with h | h
      · subst h
        simp [allSceneStamps, flatten_word_timestamps_eq_nil hinit]
      · simp [allSceneStamps, h, totalSceneWords]
    · rw [if_neg h]
      unfold allSceneStamps
      dsimp only
      rw [distLoop_flatten]
      rfl
  refine ⟨main, fun hh hl => ?_⟩
  rw [main]
  unfold hookWordsOf
  rw [if_pos hh, List.drop_zero, ← hl, List.take_length]

/-- Witness for C1's amended statement on a hook-less two-word storyboard
with a two-stamp global list: the distribution reproduces the whole list. -/
theorem c1_witness :
    (allSceneStamps (distributeTimestamps sbNoHook tsTwo)
        = (tsTwo.drop (hookWordsOf sbNoHook)).take (totalSceneWords sbNoHook)) ∧
    allSceneStamps (distributeTimestamps sbNoHook tsTwo) = tsTwo :=
  ⟨(c1_distribution_is_offset_slice sbNoHook tsTwo (by decide)).1,
   (c1_distribution_is_offset_slice sbNoHook tsTwo (by decide)).2 rfl (by decide)⟩

/-- When no generation call in range succeeds, the AI-image loop leaves every
scene's `visual_path` unchanged, and if it finished without raising, every
scene it returns is downgraded to stock footage. -/
theorem aiImageLoop_all_fail (outcome : ℕ → GenOutcome) :
    ∀ (l : List Scene) (k : ℕ),
      (∀ j, j < l.length → ∀ p, outcome (k + j) ≠ .ok p) →
      ((aiImageLoop outcome l k).1.map Scene.visual_path = l.map Scene.visual_path) ∧
      ((aiImageLoop outcome l k).2 = false →
        ∀ s ∈ (aiImageLoop outcome l k).1, s.visual_type = .stock_footage) := by
  intro l
  induction l with
  | nil =>
      intro k _
      simp [aiImageLoop]
  | cons s rest ih =>
      intro k hf
      have h0 : ∀ p, outcome k ≠ .ok p := by
        intro p
        have := hf 0 (by simp) p
        simpa using this
      have hrest : ∀ j, j < rest.length → ∀ p, outcome (k + 1 + j) ≠ .ok p := by
        intro j hj p
        have := hf (j + 1) (by simpa using Nat.succ_lt_succ hj) p
        have he : k + (j + 1) = k + 1 + j := by omega
        rwa [he] at this
      obtain ⟨ihp, iht⟩ := ih (k + 1) hrest
      cases ho : outcome k with
      | ok p => exact absurd ho (h0 p)
      | noPath =>
          constructor
          · simp only [aiImageLoop, ho, List.map_cons]
            rw [ihp]
            rfl
          · intro hb s' hs'
            simp only [aiImageLoop, ho] at hb hs'
            rcases List.mem_cons.mp hs' with h | h
            · rw [h]; rfl
            · exact iht hb s' h
      | err =>
          constructor
          · simp only [aiImageLoop, ho]
          · intro hb
            simp only [aiImageLoop, ho] at hb
            exact absurd hb (by simp)

/-- C6: if AI-image generation fails for every scene of the batch (the
generator cannot be constructed, or every `generate` call returns no path or
raises), then after the image phase every scene has `visual_type`
`stock_footage` and `visual_path` still `None`. -/
theorem c6_ai_image_all_fail_downgrades (initFail : Bool) (outcome : ℕ → GenOutcome)
    (unloadFail : Bool) (scenes : List Scene)
    (htype : ∀ s ∈ scenes, s.visual_type = .ai_generated_image)
    (hpath : ∀ s ∈ scenes, s.visual_path = none)
    (hfail : initFail = true ∨ ∀ j, j < scenes.length → ∀ p, outcome j ≠ .ok p) :
    ∀ s ∈ generateAiImages initFail outcome unloadFail scenes,
      s.visual_type = .stock_footage ∧ s.visual_path = none := by
  intro s hs
  cases initFail with
  | true =>
      simp only [generateAiImages, if_pos] at hs
      rcases List.mem_map.mp hs with ⟨s0, hs0, rfl⟩
      exact ⟨rfl, hpath s0 hs0⟩
  | false =>
      have hf : ∀ j, j < scenes.length → ∀ p, outcome j ≠ .ok p := by
        rcases hfail with hi | hf
        · exact absurd hi (by simp)
        · exact hf
      obtain ⟨hp, ht⟩ := aiImageLoop_all_fail outcome scenes 0 (by simpa using hf)
      have hP : ∀ x ∈ (aiImageLoop outcome scenes 0).1, x.visual_path = none := by
        intro x hx
        have hmem : x.visual_path ∈ (aiImageLoop outcome scenes 0).1.map Scene.visual_path :=
          List.mem_map_of_mem Scene.visual_path hx
        rw [hp] at hmem
        rcases List.mem_map.mp hmem with ⟨s0, hs0, he⟩
        rw [← he, hpath s0 hs0]
      simp only [generateAiImages, Bool.false_eq_true, if_false] at hs
      by_cases hb : (aiImageLoop outcome scenes 0).2 = true
      · rw [if_pos hb] at hs
        rcases List.mem_map.mp hs with ⟨s0, hs0, rfl⟩
        exact ⟨rfl, hP s0 hs0⟩
      · rw [if_neg hb] at hs
        cases unloadFail with
        | true =>
            simp only [if_pos] at hs
            rcases List.mem_map.mp hs with ⟨s0, hs0, rfl⟩
            exact ⟨rfl, hP s0 hs0⟩
        | false =>
            simp only [Bool.false_eq_true, if_false] at hs
            exact ⟨ht (by simpa using hb) s hs, hP s hs⟩

/-- Witness for C6: with three AI-image scenes whose generation always
returns no path, the first resulting scene is stock footage with no visual
path. -/
theorem c6_witness :
    (downgrade aiScene1).visual_type = .stock_footage ∧
    (downgrade aiScene1).visual_path = none :=
  c6_ai_image_all_fail_downgrades false (fun _ => .noPath) false aiScenes3
    (by decide) (by decide)
    (Or.inr (fun _ _ p h => GenOutcome.noConfusion h))
    (downgrade aiScene1)
    (by
      have hres : generateAiImages false (fun _ => .noPath) false aiScenes3
          = [downgrade aiScene1,
             downgrade { text := "b".toList, visual_type := .ai_generated_image },
             downgrade { text := "c".toList, visual_type := .ai_generated_image }] := rfl
      rw [hres]
      exact List.mem_cons_self _ _)

/-- Repeated `add_scene` appends the scenes with indices assigned
consecutively from the current length. -/
theorem foldl_addScene (l : List Scene) :
    ∀ sb : Storyboard,
      (l.foldl Storyboard.addScene sb).scenes
        = sb.scenes ++ reindexFrom sb.scenes.length l := by
  induction l with
  | nil => intro sb; simp [reindexFrom]
  | cons s rest ih =>
      intro sb
      rw [List.foldl_cons, ih]
      simp [Storyboard.addScene, reindexFrom, List.append_assoc]

/-- The scene-building loop of `generate_storyboard` is repeated `add_scene`
over the built scenes. -/
theorem foldl_addScene_build (F : ℕ × Fact → Scene) (l : List (ℕ × Fact)) :
    ∀ sb : Storyboard,
      (l.foldl (fun sb p => sb.addScene (F p)) sb).scenes
        = sb.scenes ++ reindexFrom sb.scenes.length (l.map F) := by
  induction l with
  | nil => intro sb; simp [reindexFrom]
  | cons p rest ih =>
      intro sb
      rw [List.foldl_cons, ih]
      simp [Storyboard.addScene, reindexFrom, List.append_assoc]

/-- Reindexing preserves list length. -/
theorem reindexFrom_length : ∀ (l : List Scene) (k : ℕ),
    (reindexFrom k l).length = l.length := by
  intro l
  induction l with
  | nil => intro k; rfl
  | cons s rest ih => intro k; simp [reindexFrom, ih]

/-- The indices assigned by reindexing are consecutive from the start value. -/
theorem reindexFrom_map_index : ∀ (l : List Scene) (k : ℕ),
    (reindexFrom k l).map Scene.scene_index = List.range' k l.length := by
  intro l
  induction l with
  | nil => intro k; rfl
  | cons s rest ih =>
      intro k
      rw [List.length_cons, List.range'_succ]
      simp [reindexFrom, ih]

/-- Reindexing does not change any field other than `scene_index`. -/
theorem reindexFrom_map_field {α : Type} (g : Scene → α)
    (hg : ∀ (s : Scene) (i : ℕ), g { s with scene_index := i } = g s) :
    ∀ (l : List Scene) (k : ℕ), (reindexFrom k l).map g = l.map g := by
  intro l
  induction l with
  | nil => intro k; rfl
  | cons s rest ih =>
      intro k
      simp [reindexFrom, ih, hg]

/-- The scene list produced by `generate_storyboard`: one built scene per
fact, reindexed from 0 by `add_scene`. -/
theorem generateStoryboard_scenes (topic : Str) (duration : ℤ)
    (language style visual_mode : Str) (max_scenes : ℕ) (hook ctaT : Str)
    (sp : Option (List Str)) (facts : List Fact) (pick : ℕ → Str) :
    (generateStoryboard topic duration language style visual_mode max_scenes
        hook ctaT sp facts pick).scenes
      = reindexFrom 0 (facts.enum.map (fun p =>
          buildScene topic (segmentDuration duration (numSegments duration max_scenes))
            (getVisualSequence visual_mode (numSegments duration max_scenes) sp)
            p.1 p.2 (pick p.1))) := by
  simp only [generateStoryboard]
  rw [foldl_addScene_build]
  rfl

/-- C2: for valid inputs (`max_scenes ≥ 1`) and a fact list of the length
the bucket rule requests (the contract of `get_facts_for_topic`),
`generate_storyboard` returns exactly 2 scenes when duration ≤ 20, 3 when
20 < duration ≤ 40, and `min(4, max_scenes)` otherwise, and the scenes'
`scene_index` values are exactly `0..n-1` in list order. -/
theorem c2_scene_count_and_indices (topic : Str) (duration : ℤ)
    (language style visual_mode : Str) (max_scenes : ℕ) (hook ctaT : Str)
    (sp : Option (List Str)) (facts : List Fact) (pick : ℕ → Str)
    (hms : 1 ≤ max_scenes)
    (hfacts : facts.length = numSegments duration max_scenes) :
    (generateStoryboard topic duration language style visual_mode max_scenes
        hook ctaT sp facts pick).scenes.length
      = (if duration ≤ 20 then 2 else if duration ≤ 40 then 3 else min 4 max_scenes) ∧
    (generateStoryboard topic duration language style visual_mode max_scenes
        hook ctaT sp facts pick).scenes.map Scene.scene_index
      = List.range (generateStoryboard topic duration language style visual_mode
          max_scenes hook ctaT sp facts pick).scenes.length := by
  have hs := generateStoryboard_scenes topic duration language style visual_mode
    max_scenes hook ctaT sp facts pick
  have hlen : (generateStoryboard topic duration language style visual_mode max_scenes
      hook ctaT sp facts pick).scenes.length = facts.length := by
    rw [hs, reindexFrom_length, List.length_map, List.enum_length]
  constructor
  · rw [hlen, hfacts]; rfl
  · rw [hs, reindexFrom_map_index, reindexFrom_length, List.length_map,
        List.enum_length, List.range_eq_range']

/-- Witness for C2 at concrete inputs: duration 50 with `max_scenes = 6` and
four facts yields `min(4,6) = 4` scenes indexed `0..3`. -/
theorem c2_witness :
    (generateStoryboard "t".toList 50 "en".toList "education".toList
        "stock".toList 6 [] [] none factsFour (fun _ => [])).scenes.length
      = (if (50:ℤ) ≤ 20 then 2 else if (50:ℤ) ≤ 40 then 3 else min 4 6) ∧
    (generateStoryboard "t".toList 50 "en".toList "education".toList
        "stock".toList 6 [] [] none factsFour (fun _ => [])).scenes.map Scene.scene_index
      = List.range (generateStoryboard "t".toList 50 "en".toList "education".toList
          "stock".toList 6 [] [] none factsFour (fun _ => [])).scenes.length :=
  c2_scene_count_and_indices "t".toList 50 "en".toList "education".toList
    "stock".toList 6 [] [] none factsFour (fun _ => [])
    (by norm_num) (by rfl)

/-- Every scene built by `generate_storyboard` carries the same planned
duration, the computed `segment_duration`. -/
theorem generateStoryboard_durations (topic : Str) (duration : ℤ)
    (language style visual_mode : Str) (max_scenes : ℕ) (hook ctaT : Str)
    (sp : Option (List Str)) (facts : List Fact) (pick : ℕ → Str) :
    (generateStoryboard topic duration language style visual_mode max_scenes
        hook ctaT sp facts pick).scenes.map Scene.duration
      = List.replicate facts.length
          ((segmentDuration duration (numSegments duration max_scenes) : ℤ) : ℚ) := by
  rw [generateStoryboard_scenes,
      reindexFrom_map_field Scene.duration (fun s i => rfl), List.map_map]
  have hfun : (Scene.duration ∘ fun p : ℕ × Fact =>
      buildScene topic (segmentDuration duration (numSegments duration max_scenes))
        (getVisualSequence visual_mode (numSegments duration max_scenes) sp)
        p.1 p.2 (pick p.1))
      = fun _ => ((segmentDuration duration (numSegments duration max_scenes) : ℤ) : ℚ) := rfl
  rw [hfun, List.map_const', List.enum_length]

/-- C5 counterexample: at duration 25 (bucket: 3 segments) the code assigns
each scene `max(5, (25−6) // 3) = 6` seconds (floor division), while the
claim's formula `max(5, (25−6)/3) = 19/3` uses exact division — they differ,
refuting the claim as stated. -/
theorem c5_counterexample :
    (generateStoryboard "t".toList 25 "en".toList "education".toList
        "stock".toList 6 [] [] none factsThree (fun _ => [])).scenes.map Scene.duration
      = List.replicate 3 (6 : ℚ) ∧
    (6 : ℚ) ≠ specSegmentDuration 25 (numSegments 25 6) := by
  constructor
  · rw [generateStoryboard_durations]
    have h6 : segmentDuration 25 (numSegments 25 6) = 6 := by decide
    rw [h6]
    norm_num [factsThree]
  · have hspec : specSegmentDuration 25 (numSegments 25 6) = 19 / 3 := by
      rw [specSegmentDuration]
      norm_num [numSegments]
    rw [hspec]
    norm_num

/-- C5 amended: for valid inputs and a fact list matching the bucket rule,
each scene's planned duration is `max(5, (duration − 6) // segment_count)`
with Python floor division, not exact division. -/
theorem c5_segment_duration_floor (topic : Str) (duration : ℤ)
    (language style visual_mode : Str) (max_scenes : ℕ) (hook ctaT : Str)
    (sp : Option (List Str)) (facts : List Fact) (pick : ℕ → Str)
    (hms : 1 ≤ max_scenes)
    (hfacts : facts.length = numSegments duration max_scenes) :
    ∀ s ∈ (generateStoryboard topic duration language style visual_mode max_scenes
        hook ctaT sp facts pick).scenes,
      s.duration
        = ((max 5 ((duration - 6).fdiv (numSegments duration max_scenes)) : ℤ) : ℚ) := by
  intro s hs
  have hmap := generateStoryboard_durations topic duration language style
    visual_mode max_scenes hook ctaT sp facts pick
  have hmem := List.mem_map_of_mem Scene.duration hs
  rw [hmap] at hmem
  exact List.eq_of_mem_replicate hmem

/-- Witness for C5's amended statement: at duration 25 with three facts,
every generated scene's duration is `max(5, 19 // 3)`. -/
theorem c5_witness :
    (generateStoryboard "t".toList 25 "en".toList "education".toList
        "stock".toList 6 [] [] none factsThree (fun _ => [])).scenes.map Scene.duration
      = List.replicate
          (generateStoryboard "t".toList 25 "en".toList "education".toList
            "stock".toList 6 [] [] none factsThree (fun _ => [])).scenes.length
          ((max 5 (((25:ℤ) - 6).fdiv (numSegments 25 6)) : ℤ) : ℚ) := by
  have h := c5_segment_duration_floor "t".toList 25 "en".toList "education".toList
    "stock".toList 6 [] [] none factsThree (fun _ => [])
    (by norm_num) (by rfl)
  rw [List.eq_replicate_iff]
  refine ⟨List.length_map _ _, ?_⟩
  intro b hb
  rcases List.mem_map.mp hb with ⟨s, hs, rfl⟩
  exact h s hs

/-- The empty string has no words. -/
theorem wordCount_nil : wordCount [] = 0 := rfl

/-- Splitting a string with a space inserted splits around the space. -/
theorem splitWordsAux_append_space (b : Str) :
    ∀ (a : Str) (acc : List Char),
      splitWordsAux (a ++ ' ' :: b) acc = splitWordsAux a acc ++ splitWordsAux b [] := by
  have hw : (' ' : Char).isWhitespace = true := by decide
  intro a
  induction a with
  | nil =>
      intro acc
      by_cases h : acc.isEmpty <;>
        simp [splitWordsAux, hw, h]
  | cons c a ih =>
      intro acc
      by_cases hc : c.isWhitespace
      · by_cases h : acc.isEmpty <;> simp [splitWordsAux, hc, h, ih]
      · simp [splitWordsAux, hc, ih]

/-- Word counts add across a single separating space. -/
theorem wordCount_append_space (a b : Str) :
    wordCount (a ++ ' ' :: b) = wordCount a + wordCount b := by
  unfold wordCount pyWords
  rw [splitWordsAux_append_space, List.length_append]

/-- The word count of a space-join is the sum of the parts' word counts. -/
theorem wordCount_spaceJoin : ∀ ps : List Str,
    wordCount (spaceJoin ps) = (ps.map wordCount).sum := by
  intro ps
  induction ps with
  | nil => rfl
  | cons p ps ih =>
      cases ps with
      | nil => simp [spaceJoin, wordCount_nil]
      | cons q ps' =>
          have hj : spaceJoin (p :: q :: ps') = p ++ ' ' :: spaceJoin (q :: ps') := rfl
          rw [hj, wordCount_append_space, ih]
          simp [List.map_cons, List.sum_cons]

/-- The narration-parts fold keeps exactly the non-empty scene texts, in
order, appended to the initial accumulator. -/
theorem narration_foldl_filter (l : List Scene) :
    ∀ p0 : List Str,
      l.foldl (fun acc s => if s.text = [] then acc else acc ++ [s.text]) p0
        = p0 ++ (l.map Scene.text).filter (fun t => !t.isEmpty) := by
  induction l with
  | nil => intro p0; simp
  | cons s rest ih =>
      intro p0
      rw [List.foldl_cons, ih]
      by_cases h : s.text = []
      · simp [h, List.filter_cons]
      · simp [h, List.filter_cons, List.append_assoc]

/-- The `parts` list of `get_full_narration` is the non-empty entries of
`[hook] ++ scene texts ++ [cta]`, in order. -/
theorem narrationParts_eq_filter (sb : Storyboard) :
    sb.narrationParts
      = ([sb.hook] ++ sb.scenes.map Scene.text ++ [sb.cta]).filter
          (fun t => !t.isEmpty) := by
  simp only [Storyboard.narrationParts]
  rw [narration_foldl_filter]
  by_cases hh : sb.hook = [] <;> by_cases hc : sb.cta = [] <;>
    simp [hh, hc, List.filter_cons, List.filter_append, List.append_assoc]

/-- Dropping empty strings does not change the total word count. -/
theorem sum_wordCount_filter (l : List Str) :
    ((l.filter (fun t => !t.isEmpty)).map wordCount).sum = (l.map wordCount).sum := by
  induction l with
  | nil => rfl
  | cons t rest ih =>
      by_cases h : t.isEmpty
      · have ht : t = [] := by simpa [List.isEmpty_iff] using h
        simp [List.filter_cons, h, ih, ht, wordCount_nil]
      · simp [List.filter_cons, h, ih]

/-- C8 counterexample: with hook `"h"`, one empty-text scene and cta `"c"`,
`get_full_narration` returns `"h c"`, but the claim's join (which includes
the empty scene text between hook and cta) is `"h  c"` — the code also
omits empty scene texts, not only empty hook/cta. -/
theorem c8_counterexample :
    Storyboard.getFullNarration sbEmptyText = "h c".toList ∧
    specNarration sbEmptyText = "h  c".toList ∧
    "h c".toList ≠ "h  c".toList := by
  decide

/-- C8 amended: `get_full_narration` is the space-join of the hook, the
non-empty scene texts in order, and the cta, with hook, cta and empty scene
texts omitted; consequently the narration's word count always equals the
hook's plus each scene's plus the cta's word counts. -/
theorem c8_narration_join_and_word_count (sb : Storyboard) :
    wordCount sb.getFullNarration
      = wordCount sb.hook + (sb.scenes.map (fun s => wordCount s.text)).sum
        + wordCount sb.cta ∧
    sb.getFullNarration
      = spaceJoin (([sb.hook] ++ sb.scenes.map Scene.text ++ [sb.cta]).filter
          (fun t => !t.isEmpty)) := by
  have hparts := narrationParts_eq_filter sb
  constructor
  · rw [Storyboard.getFullNarration, hparts, wordCount_spaceJoin,
        sum_wordCount_filter]
    simp [List.map_append, List.sum_append, List.map_map, Function.comp_def]
    omega
  · rw [Storyboard.getFullNarration, hparts]

/-- Looking up a `VisualType` by its own value string returns the member. -/
theorem visualType_ofValue_value (v : VisualType) :
    VisualType.ofValue v.value = some v := by
  cases v <;> rfl

/-- Looking up a `TransitionType` by its own value string returns the member. -/
theorem transitionType_ofValue_value (t : TransitionType) :
    TransitionType.ofValue t.value = some t := by
  cases t <;> rfl

/-- Serializing a scene and parsing it back yields the scene with the
serialized fields kept and the rest at their defaults. -/
theorem sceneFromDict_toDict (s : Scene) :
    sceneFromDict (sceneToDict s) = some (normScene s) := by
  simp [sceneFromDict, sceneToDict, visualType_ofValue_value,
    transitionType_ofValue_value, normScene]

/-- Parsing back a list of serialized scenes succeeds and yields the
normalized scenes. -/
theorem mapM_sceneFromDict (l : List Scene) :
    (l.map sceneToDict).mapM sceneFromDict = some (l.map normScene) := by
  induction l with
  | nil => rfl
  | cons s rest ih =>
      rw [List.map_cons, List.mapM_cons, sceneFromDict_toDict, ih]
      rfl

/-- Repeated `add_scene` on a storyboard only appends reindexed scenes. -/
theorem foldl_addScene_eq (l : List Scene) :
    ∀ sb : Storyboard,
      l.foldl Storyboard.addScene sb
        = { sb with scenes := sb.scenes ++ reindexFrom sb.scenes.length l } := by
  induction l with
  | nil =>
      intro sb
      rw [List.foldl_nil]
      simp [reindexFrom]
  | cons s rest ih =>
      intro sb
      rw [List.foldl_cons, ih]
      simp [Storyboard.addScene, reindexFrom, List.append_assoc]

/-- Members of a reindexed list are members of the original list with only
the index changed. -/
theorem mem_reindexFrom {s' : Scene} :
    ∀ {l : List Scene} {k : ℕ}, s' ∈ reindexFrom k l →
      ∃ s ∈ l, ∃ i, s' = { s with scene_index := i } := by
  intro l
  induction l with
  | nil =>
      intro k h
      simp [reindexFrom] at h
  | cons s rest ih =>
      intro k h
      rcases List.mem_cons.mp h with h | h
      · exact ⟨s, List.mem_cons_self s rest, k, h⟩
      · rcases ih h with ⟨s0, hs0, i, he⟩
        exact ⟨s0, List.mem_cons_of_mem s hs0, i, he⟩

/-- C10: `from_dict (to_dict sb)` succeeds and agrees with `sb` on topic,
language, style, target_duration, hook, cta, hashtags and music_mood; the
scenes match in number and in text, duration, visual_type, visual_prompt,
visual_params, transition_in and text_overlay, with `scene_index` reassigned
to `0..n-1`; the non-serialized fields (title, total_audio_duration,
transition_duration, visual_path, visual_clip, audio_path, audio_duration,
word_timestamps) are reset to their defaults. -/
theorem c10_serialization_round_trip (sb : Storyboard) :
    ∃ sb2, Storyboard.fromDict (Storyboard.toDict sb) = some sb2 ∧
      sb2.topic = sb.topic ∧ sb2.language = sb.language ∧ sb2.style = sb.style ∧
      sb2.target_duration = sb.target_duration ∧ sb2.hook = sb.hook ∧
      sb2.cta = sb.cta ∧ sb2.hashtags = sb.hashtags ∧
      sb2.music_mood = sb.music_mood ∧
      sb2.scenes.length = sb.scenes.length ∧
      sb2.scenes.map Scene.text = sb.scenes.map Scene.text ∧
      sb2.scenes.map Scene.duration = sb.scenes.map Scene.duration ∧
      sb2.scenes.map Scene.visual_type = sb.scenes.map Scene.visual_type ∧
      sb2.scenes.map Scene.visual_prompt = sb.scenes.map Scene.visual_prompt ∧
      sb2.scenes.map Scene.visual_params = sb.scenes.map Scene.visual_params ∧
      sb2.scenes.map Scene.transition_in = sb.scenes.map Scene.transition_in ∧
      sb2.scenes.map Scene.text_overlay = sb.scenes.map Scene.text_overlay ∧
      sb2.scenes.map Scene.scene_index = List.range sb.scenes.length ∧
      sb2.title = [] ∧ sb2.total_audio_duration = 0 ∧
      ∀ s ∈ sb2.scenes, s.transition_duration = 1/2 ∧ s.visual_path = none ∧
        s.visual_clip = none ∧ s.audio_path = none ∧ s.audio_duration = none ∧
        s.word_timestamps = [] := by
  refine ⟨{ topic := sb.topic, language := sb.language, style := sb.style,
            target_duration := sb.target_duration, hook := sb.hook,
            scenes := reindexFrom 0 (sb.scenes.map normScene),
            cta := sb.cta, hashtags := sb.hashtags,
            music_mood := sb.music_mood }, ?_, rfl, rfl, rfl, rfl, rfl, rfl,
        rfl, rfl, ?_, ?_, ?_, ?_, ?_, ?_, ?_, ?_, ?_, rfl, rfl, ?_⟩
  · unfold Storyboard.fromDict Storyboard.toDict
    rw [mapM_sceneFromDict]
    simp [foldl_addScene_eq]
  · rw [reindexFrom_length, List.length_map]
  · rw [reindexFrom_map_field Scene.text (fun s i => rfl), List.map_map]
    rfl
  · rw [reindexFrom_map_field Scene.duration (fun s i => rfl), List.map_map]
    rfl
  · rw [reindexFrom_map_field Scene.visual_type (fun s i => rfl), List.map_map]
    rfl
  · rw [reindexFrom_map_field Scene.visual_prompt (fun s i => rfl), List.map_map]
    rfl
  · rw [reindexFrom_map_field Scene.visual_params (fun s i => rfl), List.map_map]
    rfl
  · rw [reindexFrom_map_field Scene.transition_in (fun s i => rfl), List.map_map]
    rfl
  · rw [reindexFrom_map_field Scene.text_overlay (fun s i => rfl), List.map_map]
    rfl
  · rw [reindexFrom_map_index, List.length_map, List.range_eq_range']
  · intro s hs
    rcases mem_reindexFrom hs with ⟨s0, hs0, i, he⟩
    rcases List.mem_map.mp hs0 with ⟨s1, _, rfl⟩
    rw [he]
    exact ⟨rfl, rfl, rfl, rfl, rfl, rfl⟩

end VideoAuto
